import Mathlib

/-!
Verification of the GyrussProject game core against its specification.

The development shallowly embeds the player ship (from
src/game-source-code/PlayerShip.cpp, which is present in the repository) and
the entity controller (whose implementation file is not among the staged
sources; only src/game-source-code/EntityController.hpp with its declarations
and documentation comments is, so that component is modelled from the
specification text).  Floating-point scalars of the C++ code are embedded as
rationals; the trigonometric library functions are abstracted as function
parameters; each sf::Clock is embedded by passing the wall-clock instant of a
call explicitly and recording the instant a timer was last restarted.
-/

/-- State of the `PlayerShip` class (PlayerShip.hpp lines 188-210 and the
fields inherited from `Entity`): the polar position on the fixed movement
circle, the staged angular delta, the intent flags, the lives counter, the
invulnerability timer (modelled by the instant of its last restart), the
animation rectangle offset, and the displayed sprite position and rotation. -/
structure PlayerShip where
  resolution : ℚ × ℚ
  distanceFromCentre : ℚ
  lives : ℤ
  angle : ℚ
  futureAngleValue : ℚ
  isMoving : Bool
  isShooting : Bool
  isInvulnerable : Bool
  invulnerabilityTimeAmount : ℚ
  invulnerabilityTimerStart : ℚ
  rectLeft : ℤ
  spritePos : ℚ × ℚ
  spriteRotation : ℚ
deriving DecidableEq

/-- Modelled from the spec: `common::angleFilter` lives in common.hpp, which is
not among the staged sources.  The spec and the PlayerShip documentation speak
of an angle in degrees around the movement circle, so the filter normalises the
angle into the interval [0, 360). -/
def angleFilter (a : ℚ) : ℚ := a - 360 * (⌊a / 360⌋ : ℤ)

/-- Cartesian sprite position used by `PlayerShip::move` (PlayerShip.cpp lines
162-163): the coordinate system is rotated by 90 degrees, so x uses sin and y
uses cos of the angle, offset by half the resolution.  `sinD` and `cosD` stand
for the sine and cosine of the C++ mathematics library composed with
`common::degreeToRad`. -/
def spritePosFor (sinD cosD : ℚ → ℚ) (resolution : ℚ × ℚ) (d a : ℚ) : ℚ × ℚ :=
  (d * sinD a + resolution.1 / 2, d * cosD a + resolution.2 / 2)

/-- `PlayerShip::setMove` (PlayerShip.cpp lines 45-49): raises the movement
intent and records the staged angular delta; nothing else changes. -/
def PlayerShip.setMove (p : PlayerShip) (angle : ℚ) : PlayerShip :=
  { p with isMoving := true, futureAngleValue := angle }

/-- `PlayerShip::reset` (PlayerShip.cpp lines 51-61): zeroes the angle and the
staged delta, clears the intents, restarts the invulnerability timer (recorded
as starting at `now`), turns invulnerability on, and finally calls
`setMove(0)`, which raises the movement intent again. -/
def PlayerShip.reset (p : PlayerShip) (now : ℚ) : PlayerShip :=
  PlayerShip.setMove
    { p with angle := 0, futureAngleValue := 0, isShooting := false, isMoving := false,
             invulnerabilityTimerStart := now, isInvulnerable := true } 0

/-- `PlayerShip::move` (PlayerShip.cpp lines 155-165): adds the staged delta to
the angle, normalises it with `common::angleFilter`, and repositions and
rotates the sprite on the movement circle.  The sound pitch and sound position
calls touch no modelled state. -/
def PlayerShip.move (p : PlayerShip) (sinD cosD : ℚ → ℚ) : PlayerShip :=
  let a := angleFilter (p.angle + p.futureAngleValue)
  { p with angle := a,
           spritePos := spritePosFor sinD cosD p.resolution p.distanceFromCentre a,
           spriteRotation := -a }

/-- `PlayerShip::shoot` (private, PlayerShip.cpp lines 167-170): clears the
shooting intent. -/
def PlayerShip.shoot (p : PlayerShip) : PlayerShip := { p with isShooting := false }

/-- `PlayerShip::die` (PlayerShip.cpp lines 114-118): decrements the lives
counter, with no guard at zero, then resets the ship. -/
def PlayerShip.die (p : PlayerShip) (now : ℚ) : PlayerShip :=
  PlayerShip.reset { p with lives := p.lives - 1 } now

/-- `PlayerShip::update` (PlayerShip.cpp lines 63-86): when the movement intent
is up, the animation rectangle advances by the tile width 366 (wrapping past
3660 - 366 back to 0) and `move()` applies the staged delta; when the shooting
intent is up, `shoot()` clears it; when the timer reading `now` minus the
recorded restart instant exceeds `_invulnerabilityTimeAmount`, invulnerability
is switched off; finally both intents and the staged delta are cleared. -/
def PlayerShip.update (p : PlayerShip) (sinD cosD : ℚ → ℚ) (now : ℚ) : PlayerShip :=
  let p1 :=
    if p.isMoving then
      let left := p.rectLeft + 366
      let left2 := if left > 3660 - 366 then 0 else left
      PlayerShip.move { p with rectLeft := left2 } sinD cosD
    else p
  let p2 := if p1.isShooting then p1.shoot else p1
  let p3 :=
    if now - p2.invulnerabilityTimerStart > p2.invulnerabilityTimeAmount then
      { p2 with isInvulnerable := false }
    else p2
  { p3 with isMoving := false, futureAngleValue := 0, isShooting := false }

/-- Ship state as the constructor leaves it (PlayerShip.cpp lines 14-43):
three lives, a 1.2 second invulnerability window, invulnerability on and both
intents down; the remaining scalars are a representative configuration. -/
def playerShipDefault : PlayerShip :=
  { resolution := (1920, 1080), distanceFromCentre := 420, lives := 3, angle := 0,
    futureAngleValue := 0, isMoving := false, isShooting := false, isInvulnerable := true,
    invulnerabilityTimeAmount := 6 / 5, invulnerabilityTimerStart := 0,
    rectLeft := 0, spritePos := (960, 960), spriteRotation := 0 }

/-- Projections of `update` that the invulnerability analysis needs: `update`
never restarts the invulnerability timer and never changes the configured
window length or the lives counter. -/
theorem PlayerShip.update_timer_fields (p : PlayerShip) (sinD cosD : ℚ → ℚ) (now : ℚ) :
    (p.update sinD cosD now).invulnerabilityTimerStart = p.invulnerabilityTimerStart
  ∧ (p.update sinD cosD now).invulnerabilityTimeAmount = p.invulnerabilityTimeAmount
  ∧ (p.update sinD cosD now).lives = p.lives := by
  simp only [PlayerShip.update, PlayerShip.move, PlayerShip.shoot]
  split_ifs <;> simp

/-- The invulnerability flag after one `update` call: it is switched off
exactly when the timer reading exceeds the configured window, and is otherwise
left as it was. -/
theorem PlayerShip.update_isInvulnerable (p : PlayerShip) (sinD cosD : ℚ → ℚ) (now : ℚ) :
    (p.update sinD cosD now).isInvulnerable =
      if p.invulnerabilityTimeAmount < now - p.invulnerabilityTimerStart then false
      else p.isInvulnerable := by
  simp only [PlayerShip.update, PlayerShip.move, PlayerShip.shoot]
  split_ifs <;> simp_all

/-- Folding `update` over a list of call instants that all read at most the
configured window keeps invulnerability on and leaves the timer fields
untouched. -/
theorem PlayerShip.foldl_update_invuln (sinD cosD : ℚ → ℚ) (ts : List ℚ) (q : PlayerShip)
    (h1 : q.isInvulnerable = true)
    (hts : ∀ t ∈ ts, t - q.invulnerabilityTimerStart ≤ q.invulnerabilityTimeAmount) :
    (ts.foldl (fun r t => r.update sinD cosD t) q).isInvulnerable = true
  ∧ (ts.foldl (fun r t => r.update sinD cosD t) q).invulnerabilityTimerStart
      = q.invulnerabilityTimerStart
  ∧ (ts.foldl (fun r t => r.update sinD cosD t) q).invulnerabilityTimeAmount
      = q.invulnerabilityTimeAmount := by
  induction ts generalizing q with
  | nil => exact ⟨h1, rfl, rfl⟩
  | cons t ts ih =>
    simp only [List.foldl_cons]
    have hp := PlayerShip.update_timer_fields q sinD cosD t
    have hi := PlayerShip.update_isInvulnerable q sinD cosD t
    have hnot : ¬ q.invulnerabilityTimeAmount < t - q.invulnerabilityTimerStart := by
      have := hts t (by simp)
      linarith
    have h1a : (q.update sinD cosD t).isInvulnerable = true := by
      rw [hi, if_neg hnot]; exact h1
    have h2 := ih (q.update sinD cosD t) h1a (fun u hu => by
      rw [hp.1, hp.2.1]; exact hts u (by simp [hu]))
    exact ⟨h2.1, by rw [h2.2.1, hp.1], by rw [h2.2.2, hp.2.1]⟩

/-- Claim C7: staged movement.  `setMove` only records the staged delta and
raises the movement intent; the displayed angle, sprite position and rotation
are untouched.  The position changes only at the apply step: `move` adds the
staged delta to the angle (normalised by the angle filter) and repositions the
sprite on the movement circle at the new angle; `update` leaves angle and
position alone when the movement intent is down and applies the staged delta
when it is up. -/
theorem setMove_staged_until_move (p : PlayerShip) (a : ℚ) (sinD cosD : ℚ → ℚ) (now : ℚ) :
    (p.setMove a).angle = p.angle
  ∧ (p.setMove a).spritePos = p.spritePos
  ∧ (p.setMove a).spriteRotation = p.spriteRotation
  ∧ (p.setMove a).futureAngleValue = a
  ∧ (p.setMove a).isMoving = true
  ∧ (p.move sinD cosD).angle = angleFilter (p.angle + p.futureAngleValue)
  ∧ (p.move sinD cosD).spritePos
      = spritePosFor sinD cosD p.resolution p.distanceFromCentre ((p.move sinD cosD).angle)
  ∧ (p.isMoving = false → (p.update sinD cosD now).spritePos = p.spritePos
      ∧ (p.update sinD cosD now).angle = p.angle)
  ∧ (p.isMoving = true →
      (p.update sinD cosD now).angle = angleFilter (p.angle + p.futureAngleValue)) := by
  refine ⟨rfl, rfl, rfl, rfl, rfl, rfl, rfl, ?_, ?_⟩ <;> intro h <;>
    simp only [PlayerShip.update, PlayerShip.move, PlayerShip.shoot, h] <;>
    split_ifs <;> simp_all

/-- Claim C8: invulnerability window.  After a reset at instant `t0` the ship
is invulnerable; it stays invulnerable through every `update` whose timer
reading is at most the configured window, and the first `update` whose reading
exceeds the window switches invulnerability off. -/
theorem invulnerability_window_after_reset (p : PlayerShip) (t0 : ℚ) (ts : List ℚ)
    (sinD cosD : ℚ → ℚ) (tLate : ℚ)
    (hts : ∀ t ∈ ts, t - t0 ≤ p.invulnerabilityTimeAmount)
    (hLate : p.invulnerabilityTimeAmount < tLate - t0) :
    (p.reset t0).isInvulnerable = true
  ∧ (ts.foldl (fun q t => q.update sinD cosD t) (p.reset t0)).isInvulnerable = true
  ∧ ((ts.foldl (fun q t => q.update sinD cosD t) (p.reset t0)).update
        sinD cosD tLate).isInvulnerable = false := by
  have hresetS : (p.reset t0).invulnerabilityTimerStart = t0 := rfl
  have hresetA : (p.reset t0).invulnerabilityTimeAmount = p.invulnerabilityTimeAmount := rfl
  have hf := PlayerShip.foldl_update_invuln sinD cosD ts (p.reset t0) rfl
    (fun u hu => by rw [hresetS, hresetA]; exact hts u hu)
  refine ⟨rfl, hf.1, ?_⟩
  rw [PlayerShip.update_isInvulnerable, hf.2.1, hf.2.2, hresetS, hresetA, if_pos hLate]

/-- Instantiation of the invulnerability window at a concrete configuration:
two updates inside the 1.2 second window keep invulnerability on, and one at
2 seconds switches it off. -/
theorem invulnerability_window_witness :
    (∀ t ∈ ([1/2, 1] : List ℚ), t - 0 ≤ playerShipDefault.invulnerabilityTimeAmount)
  ∧ playerShipDefault.invulnerabilityTimeAmount < 2 - 0
  ∧ ((playerShipDefault.reset 0).isInvulnerable = true
  ∧ (([1/2, 1] : List ℚ).foldl (fun q t => q.update (fun _ => 0) (fun _ => 0) t)
        (playerShipDefault.reset 0)).isInvulnerable = true
  ∧ ((([1/2, 1] : List ℚ).foldl (fun q t => q.update (fun _ => 0) (fun _ => 0) t)
        (playerShipDefault.reset 0)).update (fun _ => 0) (fun _ => 0) 2).isInvulnerable
      = false) :=
  ⟨by intro t ht; fin_cases ht <;> norm_num [playerShipDefault],
   by norm_num [playerShipDefault],
   invulnerability_window_after_reset playerShipDefault 0 [1/2, 1]
     (fun _ => 0) (fun _ => 0) 2
     (by intro t ht; fin_cases ht <;> norm_num [playerShipDefault])
     (by norm_num [playerShipDefault])⟩

/-- Claim C9: every `update` call fully consumes the movement and shooting
intents and the staged delta, whatever the state before the call. -/
theorem update_consumes_intents (p : PlayerShip) (sinD cosD : ℚ → ℚ) (now : ℚ) :
    (p.update sinD cosD now).isMoving = false
  ∧ (p.update sinD cosD now).isShooting = false
  ∧ (p.update sinD cosD now).futureAngleValue = 0 := by
  simp [PlayerShip.update]

/-- Claim C10: `die` decrements the lives counter by exactly one with no lower
bound (at zero lives the counter goes to minus one), and the subsequent reset
leaves the ship invulnerable, at angle zero, with the invulnerability timer
restarted at the instant of the call. -/
theorem die_decrements_lives_and_resets (p : PlayerShip) (now : ℚ) :
    (p.die now).lives = p.lives - 1
  ∧ (p.die now).isInvulnerable = true
  ∧ (p.die now).angle = 0
  ∧ (p.die now).invulnerabilityTimerStart = now
  ∧ (PlayerShip.die { p with lives := 0 } now).lives = -1 := by
  refine ⟨rfl, rfl, rfl, rfl, by simp [PlayerShip.die, PlayerShip.reset, PlayerShip.setMove]⟩

/-- Modelled from the spec: the `entity::ID` tag of common.hpp, which is not
among the staged sources.  One constructor per entity variant the spec
enumerates (the player, basic enemies, escort satellites, meteoroids, player
and enemy bullets, explosions). -/
inductive EntityID where
  | playerShip
  | basicEnemy
  | satellite
  | meteoroid
  | playerBullet
  | enemyBullet
  | explosion
deriving DecidableEq

/-- Modelled from the spec: the axis-aligned sprite bounds, as the
`sf::FloatRect` returned by `getGlobalBounds()` of the SFML collaborator. -/
structure FloatRect where
  left : ℚ
  top : ℚ
  width : ℚ
  height : ℚ
deriving DecidableEq

/-- Modelled from the spec: axis-aligned overlap of two sprite bounds, the
`sf::FloatRect::intersects` test used by `EntityController::collides`. -/
def FloatRect.intersects (a b : FloatRect) : Bool :=
  decide (b.left < a.left + a.width) && decide (a.left < b.left + b.width) &&
  decide (b.top < a.top + a.height) && decide (a.top < b.top + b.height)

/-- Modelled from the spec: the view of a non-player entity that the entity
controller reads: its variant tag, its sprite bounds, and its radial distance
from the screen centre (the quantity the clipping pass checks). -/
structure Entity where
  type : EntityID
  bounds : FloatRect
  radius : ℚ
deriving DecidableEq

/-- Modelled from the spec: the Explosion spawned at a collision point takes
over the position of the destroyed entity. -/
def mkExplosion (e : Entity) : Entity :=
  { type := EntityID.explosion, bounds := e.bounds, radius := e.radius }

/-- Modelled from the spec: the configured cap on the number of enemies alive
at one time; its numeric value lives in common.hpp, which is not among the
staged sources, so a representative value is fixed here. -/
def maxEnemies : ℕ := 7

/-- Modelled from the spec: the small cap gating further satellite spawns. -/
def maxSatellitesAlive : ℕ := 3

/-- Modelled from the spec: the lower edge of the valid play annulus. -/
def minRadius : ℚ := 1

/-- Modelled from the spec: the outer edge of the valid play annulus. -/
def maxRadius : ℚ := 600

/-- Modelled from the spec: the minimum value the global speed modifier is
clamped to. -/
def minSpeed : ℚ := 1

/-- Modelled from the spec: the maximum value the global speed modifier is
clamped to. -/
def maxSpeed : ℚ := 5 / 2

/-- Modelled from the spec: the state of the `EntityController` class, whose
implementation file is not among the staged sources (EntityController.hpp
lines 353-507 declare the members).  It owns the five entity collections, the
score collaborator (its running total), the frame-local latch flags, the
global speed scalars and the satellite counter, and it reads and writes the
player through a reference, mirrored here by the player-visible fields it
touches: sprite bounds, radial distance, angle, lives and invulnerability. -/
structure EntityController where
  bulletsEnemy : List Entity
  bulletsPlayer : List Entity
  enemies : List Entity
  meteoroids : List Entity
  explosions : List Entity
  score : ℕ
  explosionHasOccurred : Bool
  playerHasBeenHit : Bool
  speedModifier : ℚ
  defaultSpeed : ℚ
  satellitesAlive : ℕ
  playerBounds : FloatRect
  playerRadius : ℚ
  playerAngle : ℚ
  playerLives : ℤ
  playerInvulnerable : Bool
  playerUpgraded : Bool
deriving DecidableEq

/-- Modelled from the spec: collision category 1, `EntityController::
checkEnemyToPlayerShipCollisions` (declared at EntityController.hpp lines
307-310).  Every enemy whose bounds overlap the player is destroyed, an
Explosion is spawned at the collision point, the explosion flag is latched,
and the player-hit flag is latched. -/
def EntityController.checkEnemyToPlayerShipCollisions
    (s : EntityController) : EntityController :=
  let hit := s.enemies.filter (fun e => e.bounds.intersects s.playerBounds)
  { s with
    enemies := s.enemies.filter (fun e => !(e.bounds.intersects s.playerBounds)),
    explosions := s.explosions ++ hit.map mkExplosion,
    explosionHasOccurred := s.explosionHasOccurred
      || s.enemies.any (fun e => e.bounds.intersects s.playerBounds),
    playerHasBeenHit := s.playerHasBeenHit
      || s.enemies.any (fun e => e.bounds.intersects s.playerBounds) }

/-- Modelled from the spec: collision category 2, `EntityController::
checkEnemyBulletsToPlayerShipCollisions` (declared at lines 312-316).  Same
damage and explosion effect as category 1; the bullet is always removed,
regardless of invulnerability. -/
def EntityController.checkEnemyBulletsToPlayerShipCollisions
    (s : EntityController) : EntityController :=
  let hit := s.bulletsEnemy.filter (fun b => b.bounds.intersects s.playerBounds)
  { s with
    bulletsEnemy := s.bulletsEnemy.filter (fun b => !(b.bounds.intersects s.playerBounds)),
    explosions := s.explosions ++ hit.map mkExplosion,
    explosionHasOccurred := s.explosionHasOccurred
      || s.bulletsEnemy.any (fun b => b.bounds.intersects s.playerBounds),
    playerHasBeenHit := s.playerHasBeenHit
      || s.bulletsEnemy.any (fun b => b.bounds.intersects s.playerBounds) }

/-- Modelled from the spec: first enemy of the list the bullet overlaps,
together with the remaining enemies; `none` when the bullet misses. -/
def removeFirstHit (b : Entity) : List Entity → Option (Entity × List Entity)
  | [] => none
  | e :: es =>
    if b.bounds.intersects e.bounds then some (e, es)
    else
      match removeFirstHit b es with
      | some (hitE, rest) => some (hitE, e :: rest)
      | none => none

/-- Modelled from the spec: `EntityController::enemyKilled` (declared at lines
337-343), the enemy-type-specific follow-up when a bullet kills an enemy.
When the victim is a satellite the alive counter drops; killing the last
satellite destroys all remaining satellites and upgrades the player weapon. -/
def EntityController.enemyKilled (s : EntityController) (t : EntityID) : EntityController :=
  if t = EntityID.satellite then
    if s.satellitesAlive - 1 = 0 then
      { s with satellitesAlive := 0,
               enemies := s.enemies.filter (fun e => !(decide (e.type = EntityID.satellite))),
               playerUpgraded := true }
    else { s with satellitesAlive := s.satellitesAlive - 1 }
  else s

/-- Modelled from the spec: the scan of category 3 over the player bullets.  A
bullet that overlaps an enemy is consumed by its first hit (a dead bullet
cannot collide twice): that enemy is removed, the score is incremented, an
Explosion is spawned and `enemyKilled` runs; a bullet that misses survives. -/
def pb2eGo : List Entity → EntityController → EntityController
  | [], s => s
  | b :: rest, s =>
    match removeFirstHit b s.enemies with
    | some (e, enemies2) =>
      pb2eGo rest (EntityController.enemyKilled
        { s with enemies := enemies2,
                 explosions := s.explosions ++ [mkExplosion e],
                 score := s.score + 1,
                 explosionHasOccurred := true } e.type)
    | none => pb2eGo rest { s with bulletsPlayer := s.bulletsPlayer ++ [b] }

/-- Modelled from the spec: collision category 3, `EntityController::
checkPlayerBulletsToEnemyCollisions` (declared at lines 318-322). -/
def EntityController.checkPlayerBulletsToEnemyCollisions
    (s : EntityController) : EntityController :=
  pb2eGo s.bulletsPlayer { s with bulletsPlayer := [] }

/-- Modelled from the spec: collision category 4, `EntityController::
checkMeteoroidToPlayerShipCollisions` (declared at lines 324-328).  The player
takes the hit; the meteoroid is invulnerable and is not removed. -/
def EntityController.checkMeteoroidToPlayerShipCollisions
    (s : EntityController) : EntityController :=
  { s with playerHasBeenHit := s.playerHasBeenHit
      || s.meteoroids.any (fun m => m.bounds.intersects s.playerBounds) }

/-- Modelled from the spec: collision category 5, `EntityController::
checkPlayerBulletsToMeteoroidCollisions` (declared at lines 330-335).  A
bullet overlapping any meteoroid is removed; the meteoroid is unaffected, no
score is granted and no Explosion is spawned. -/
def EntityController.checkPlayerBulletsToMeteoroidCollisions
    (s : EntityController) : EntityController :=
  let survives := fun (b : Entity) => !(s.meteoroids.any (fun m => b.bounds.intersects m.bounds))
  { s with bulletsPlayer := s.bulletsPlayer.filter survives }

/-- Modelled from the spec: `EntityController::checkCollisions` (declared at
lines 133-146).  The frame-local latch flags are reset at frame start, the
five category pairs run in their fixed order, and the call returns true
exactly when a player-affecting collision (category 1, 2 or 4) was latched. -/
def EntityController.checkCollisions (s : EntityController) : Bool × EntityController :=
  let s0 := { s with playerHasBeenHit := false, explosionHasOccurred := false }
  let s5 :=
    EntityController.checkPlayerBulletsToMeteoroidCollisions
      (EntityController.checkMeteoroidToPlayerShipCollisions
        (EntityController.checkPlayerBulletsToEnemyCollisions
          (EntityController.checkEnemyBulletsToPlayerShipCollisions
            (EntityController.checkEnemyToPlayerShipCollisions s0))))
  (s5.playerHasBeenHit, s5)

/-- Modelled from the spec: the effect of a player death on the state the
controller sees, mirroring `PlayerShip::die` (one life lost, default angle,
invulnerability on) together with the global speed reset the spec prescribes
on player death. -/
def EntityController.playerDie (s : EntityController) : EntityController :=
  { s with playerLives := s.playerLives - 1,
           playerAngle := 0,
           playerInvulnerable := true,
           speedModifier := s.defaultSpeed }

/-- Modelled from the spec: the per-frame resolution of the return value of
`checkCollisions`: the orchestrator triggers the life loss at most once per
frame, from the single returned flag, so simultaneous hits never decrement
twice; an invulnerable player takes no damage. -/
def EntityController.collisionFrame (s : EntityController) : Bool × EntityController :=
  let r := EntityController.checkCollisions s
  if r.1 && !r.2.playerInvulnerable then (r.1, EntityController.playerDie r.2)
  else r

/-- Modelled from the spec: `EntityController::changeGlobalSpeed` (declared at
lines 186-197): adds the amount to the speed modifier and silently clamps the
result to the imposed maximum and minimum values. -/
def EntityController.changeGlobalSpeed (s : EntityController) (amount : ℚ) : EntityController :=
  let v := s.speedModifier + amount
  let v2 := if v > maxSpeed then maxSpeed else v
  let v3 := if v2 < minSpeed then minSpeed else v2
  { s with speedModifier := v3 }

/-- Modelled from the spec: `EntityController::resetGlobalSpeed` (declared at
lines 194-197): reverts the speed modifier to the stock default value. -/
def EntityController.resetGlobalSpeed (s : EntityController) : EntityController :=
  { s with speedModifier := s.defaultSpeed }

/-- Modelled from the spec: `EntityController::getSpeed` (declared at lines
199-204): the current game speed. -/
def EntityController.getSpeed (s : EntityController) : ℚ := s.speedModifier

/-- Modelled from the spec: an entity survives the clipping pass exactly when
its radial distance lies inside the valid play annulus. -/
def insideAnnulus (e : Entity) : Bool :=
  decide (minRadius ≤ e.radius) && decide (e.radius ≤ maxRadius)

/-- Modelled from the spec: `EntityController::checkClipping` (declared at
lines 127-131): every owned entity whose radial distance falls outside the
valid play annulus is removed from its collection; the player is never
removed, but when its radial distance is outside the annulus it goes through
a full death (one life lost, reset to the default angle and position on the
movement circle, invulnerability on). -/
def EntityController.checkClipping (s : EntityController) : EntityController :=
  let s2 := { s with
    bulletsEnemy := s.bulletsEnemy.filter insideAnnulus,
    bulletsPlayer := s.bulletsPlayer.filter insideAnnulus,
    enemies := s.enemies.filter insideAnnulus,
    meteoroids := s.meteoroids.filter insideAnnulus,
    explosions := s.explosions.filter insideAnnulus }
  if decide (minRadius ≤ s.playerRadius) && decide (s.playerRadius ≤ maxRadius) then s2
  else EntityController.playerDie s2

/-- Modelled from the spec: all entities owned by the controller, across the
five collections. -/
def EntityController.allEntities (s : EntityController) : List Entity :=
  s.bulletsEnemy ++ s.bulletsPlayer ++ s.enemies ++ s.meteoroids ++ s.explosions

/-- Modelled from the spec: the per-call inputs of the spawn scheduler.  Each
track owns a timer, embedded as the elapsed seconds the timer shows at this
call, and draws its own uniform random number in [0, 1). -/
structure SpawnInputs where
  perimeterElapsed : ℚ
  perimeterDraw : ℚ
  centreElapsed : ℚ
  centreDraw : ℚ
  wandererElapsed : ℚ
  wandererDraw : ℚ
  satelliteElapsed : ℚ
  satelliteDraw : ℚ
  meteoroidElapsed : ℚ
  meteoroidDraw : ℚ
deriving DecidableEq

/-- Modelled from the spec: a spawn track fires when its timer has exceeded
its minimum interval and its uniform draw clears its threshold. -/
def trackFires (elapsed draw interval chance : ℚ) : Bool :=
  decide (elapsed > interval) && decide (draw < chance)

/-- Modelled from the spec: minimum seconds between perimeter spawns. -/
def perimeterSpawnInterval : ℚ := 1

/-- Modelled from the spec: trigger probability of the perimeter track. -/
def perimeterSpawnChance : ℚ := 1 / 2

/-- Modelled from the spec: minimum seconds between centre spawns. -/
def centreSpawnInterval : ℚ := 2

/-- Modelled from the spec: trigger probability of the centre track. -/
def centreSpawnChance : ℚ := 1 / 2

/-- Modelled from the spec: minimum seconds between wanderer spawns. -/
def wandererSpawnInterval : ℚ := 3

/-- Modelled from the spec: trigger probability of the wanderer track. -/
def wandererSpawnChance : ℚ := 1 / 4

/-- Modelled from the spec: minimum seconds between satellite spawns. -/
def satelliteSpawnInterval : ℚ := 5

/-- Modelled from the spec: trigger probability of the satellite track. -/
def satelliteSpawnChance : ℚ := 1 / 4

/-- Modelled from the spec: minimum seconds between meteoroid spawns. -/
def meteoroidSpawnInterval : ℚ := 4

/-- Modelled from the spec: trigger probability of the meteoroid track. -/
def meteoroidSpawnChance : ℚ := 1 / 4

/-- Modelled from the spec: the radial distance of the play boundary where
perimeter spawns enter. -/
def perimeterSpawnRadius : ℚ := 500

/-- Modelled from the spec: the radial distance near the centre where centre
spawns enter. -/
def centreSpawnRadius : ℚ := 2

/-- Modelled from the spec: a freshly spawned entity of the given variant.
Its initial angle is chosen from the configured angular range by the track's
uniform draw; its sprite bounds are abstracted to a unit box indexed by the
spawn angle and radius (the Cartesian sprite geometry is owned by the
excluded rendering collaborator). -/
def newSpawn (t : EntityID) (r draw : ℚ) : Entity :=
  { type := t, bounds := { left := 360 * draw, top := r, width := 1, height := 1 }, radius := r }

/-- Modelled from the spec: the perimeter spawn track of `EntityController::
spawnEntities` (declared at lines 69-83): basic enemies entering from the play
boundary, spiralling inward; suppressed once the enemy cap is reached. -/
def spawnFromPerimeter (inp : SpawnInputs) (s : EntityController) : EntityController :=
  if trackFires inp.perimeterElapsed inp.perimeterDraw perimeterSpawnInterval perimeterSpawnChance
      && decide (s.enemies.length < maxEnemies) then
    { s with enemies := s.enemies
        ++ [newSpawn EntityID.basicEnemy perimeterSpawnRadius inp.perimeterDraw] }
  else s

/-- Modelled from the spec: the centre spawn track: basic enemies entering
near the centre, spiralling outward; suppressed once the enemy cap is
reached. -/
def spawnFromCentre (inp : SpawnInputs) (s : EntityController) : EntityController :=
  if trackFires inp.centreElapsed inp.centreDraw centreSpawnInterval centreSpawnChance
      && decide (s.enemies.length < maxEnemies) then
    { s with enemies := s.enemies
        ++ [newSpawn EntityID.basicEnemy centreSpawnRadius inp.centreDraw] }
  else s

/-- Modelled from the spec: the wanderer spawn track: enemies entering
directly in the wandering state; suppressed once the enemy cap is reached. -/
def spawnWanderer (inp : SpawnInputs) (s : EntityController) : EntityController :=
  if trackFires inp.wandererElapsed inp.wandererDraw wandererSpawnInterval wandererSpawnChance
      && decide (s.enemies.length < maxEnemies) then
    { s with enemies := s.enemies
        ++ [newSpawn EntityID.basicEnemy perimeterSpawnRadius inp.wandererDraw] }
  else s

/-- Modelled from the spec: the satellite spawn track, `EntityController::
spawnSatellites` (declared at lines 111-117): gated additionally by the alive
satellite counter staying under its small cap, and suppressed once the global
enemy cap is reached. -/
def spawnSatellites (inp : SpawnInputs) (s : EntityController) : EntityController :=
  if trackFires inp.satelliteElapsed inp.satelliteDraw satelliteSpawnInterval satelliteSpawnChance
      && decide (s.satellitesAlive < maxSatellitesAlive)
      && decide (s.enemies.length < maxEnemies) then
    { s with enemies := s.enemies
        ++ [newSpawn EntityID.satellite centreSpawnRadius inp.satelliteDraw],
             satellitesAlive := s.satellitesAlive + 1 }
  else s

/-- Modelled from the spec: the meteoroid spawn track, `EntityController::
spawnMeteoroid` (declared at lines 103-109): its own timer and probability,
unlimited concurrent count, exempt from the enemy cap. -/
def spawnMeteoroid (inp : SpawnInputs) (s : EntityController) : EntityController :=
  if trackFires inp.meteoroidElapsed inp.meteoroidDraw meteoroidSpawnInterval meteoroidSpawnChance then
    { s with meteoroids := s.meteoroids
        ++ [newSpawn EntityID.meteoroid perimeterSpawnRadius inp.meteoroidDraw] }
  else s

/-- Modelled from the spec: `EntityController::spawnEntities` (declared at
lines 69-83): one call per frame, evaluating the gated spawn tracks
independently. -/
def EntityController.spawnEntities (s : EntityController) (inp : SpawnInputs) : EntityController :=
  spawnMeteoroid inp (spawnSatellites inp (spawnWanderer inp (spawnFromCentre inp (spawnFromPerimeter inp s))))

/-- Fields of the controller that `enemyKilled` never touches. -/
theorem EntityController.enemyKilled_pres (s : EntityController) (t : EntityID) :
    (s.enemyKilled t).playerHasBeenHit = s.playerHasBeenHit
  ∧ (s.enemyKilled t).playerLives = s.playerLives
  ∧ (s.enemyKilled t).playerInvulnerable = s.playerInvulnerable
  ∧ (s.enemyKilled t).meteoroids = s.meteoroids
  ∧ (s.enemyKilled t).bulletsEnemy = s.bulletsEnemy
  ∧ (s.enemyKilled t).playerBounds = s.playerBounds
  ∧ (s.enemyKilled t).bulletsPlayer = s.bulletsPlayer := by
  simp only [EntityController.enemyKilled]
  split_ifs <;> simp

/-- Fields of the controller that the category 3 scan never touches. -/
theorem pb2eGo_pres (bs : List Entity) (s : EntityController) :
    (pb2eGo bs s).playerHasBeenHit = s.playerHasBeenHit
  ∧ (pb2eGo bs s).playerLives = s.playerLives
  ∧ (pb2eGo bs s).playerInvulnerable = s.playerInvulnerable
  ∧ (pb2eGo bs s).meteoroids = s.meteoroids
  ∧ (pb2eGo bs s).bulletsEnemy = s.bulletsEnemy
  ∧ (pb2eGo bs s).playerBounds = s.playerBounds := by
  induction bs generalizing s with
  | nil => exact ⟨rfl, rfl, rfl, rfl, rfl, rfl⟩
  | cons b rest ih =>
    simp only [pb2eGo]
    rcases hfind : removeFirstHit b s.enemies with _ | ⟨e, enemies2⟩
    · have h2 := ih { s with bulletsPlayer := s.bulletsPlayer ++ [b] }
      simpa using h2
    · obtain ⟨k1, k2, k3, k4, k5, k6, k7⟩ := EntityController.enemyKilled_pres
        { s with enemies := enemies2,
                 explosions := s.explosions ++ [mkExplosion e],
                 score := s.score + 1,
                 explosionHasOccurred := true } e.type
      obtain ⟨g1, g2, g3, g4, g5, g6⟩ := ih (EntityController.enemyKilled
        { s with enemies := enemies2,
                 explosions := s.explosions ++ [mkExplosion e],
                 score := s.score + 1,
                 explosionHasOccurred := true } e.type)
      exact ⟨g1.trans k1, g2.trans k2, g3.trans k3, g4.trans k4, g5.trans k5, g6.trans k6⟩

/-- Claim C6: global speed control.  `changeGlobalSpeed` adds the amount and
clamps the result into the interval from `minSpeed` to `maxSpeed`; in
particular any amount that overshoots the maximum leaves the speed exactly at
`maxSpeed`, and `resetGlobalSpeed` restores exactly the stock default. -/
theorem globalSpeed_clamp_and_reset (s : EntityController) (amount : ℚ) :
    (s.changeGlobalSpeed amount).getSpeed = min maxSpeed (max minSpeed (s.getSpeed + amount))
  ∧ (maxSpeed ≤ s.getSpeed + amount → (s.changeGlobalSpeed amount).getSpeed = maxSpeed)
  ∧ (s.resetGlobalSpeed).getSpeed = s.defaultSpeed := by
  have hms : minSpeed ≤ maxSpeed := by norm_num [minSpeed, maxSpeed]
  refine ⟨?_, ?_, rfl⟩
  · simp only [EntityController.changeGlobalSpeed, EntityController.getSpeed]
    rcases le_or_lt (s.speedModifier + amount) maxSpeed with h1 | h1
    · rw [if_neg (not_lt.mpr h1)]
      rcases le_or_lt minSpeed (s.speedModifier + amount) with h2 | h2
      · rw [if_neg (not_lt.mpr h2), max_eq_right h2, min_eq_right h1]
      · rw [if_pos h2, max_eq_left h2.le, min_eq_right hms]
    · rw [if_pos h1, if_neg (not_lt.mpr hms),
          max_eq_right (hms.trans h1.le), min_eq_left h1.le]
  · intro h
    simp only [EntityController.changeGlobalSpeed, EntityController.getSpeed] at h ⊢
    rcases lt_or_eq_of_le h with h1 | h1
    · rw [if_pos h1, if_neg (not_lt.mpr hms)]
    · rw [← h1, if_neg (lt_irrefl maxSpeed), if_neg (not_lt.mpr hms)]

/-- Claim C5: the clipping pass.  Every entity still present in any collection
after `checkClipping` has radial distance inside the valid play annulus; the
player, when its radial distance was inside the band, is untouched, and when
it was outside, loses exactly one life and is reset to the default angle (and
with it the default position on its fixed movement circle) and to the
invulnerable state. -/
theorem checkClipping_band_and_player_reset (s : EntityController) :
    (∀ e ∈ (s.checkClipping).allEntities, minRadius ≤ e.radius ∧ e.radius ≤ maxRadius)
  ∧ ((minRadius ≤ s.playerRadius ∧ s.playerRadius ≤ maxRadius) →
        (s.checkClipping).playerLives = s.playerLives
      ∧ (s.checkClipping).playerAngle = s.playerAngle
      ∧ (s.checkClipping).playerInvulnerable = s.playerInvulnerable)
  ∧ (¬ (minRadius ≤ s.playerRadius ∧ s.playerRadius ≤ maxRadius) →
        (s.checkClipping).playerLives = s.playerLives - 1
      ∧ (s.checkClipping).playerAngle = 0
      ∧ (s.checkClipping).playerInvulnerable = true) := by
  refine ⟨?_, ?_, ?_⟩
  · intro e he
    have hco : (s.checkClipping).allEntities
        = s.bulletsEnemy.filter insideAnnulus ++ s.bulletsPlayer.filter insideAnnulus
          ++ s.enemies.filter insideAnnulus ++ s.meteoroids.filter insideAnnulus
          ++ s.explosions.filter insideAnnulus := by
      simp only [EntityController.checkClipping, EntityController.allEntities,
        EntityController.playerDie]
      split_ifs <;> rfl
    rw [hco] at he
    simp only [List.mem_append, List.mem_filter, insideAnnulus, Bool.and_eq_true,
      decide_eq_true_eq] at he
    tauto
  · intro hc
    have hcond : (decide (minRadius ≤ s.playerRadius)
        && decide (s.playerRadius ≤ maxRadius)) = true := by simp [hc.1, hc.2]
    simp [EntityController.checkClipping, hcond]
  · intro hc
    rw [Decidable.not_and_iff_or_not] at hc
    have hcond : (decide (minRadius ≤ s.playerRadius)
        && decide (s.playerRadius ≤ maxRadius)) = false := by
      rcases hc with hc | hc <;> simp [hc]
    simp [EntityController.checkClipping, EntityController.playerDie, hcond]

/-- Once the enemy cap is reached, every enemy-producing spawn track is a
no-op, so one `spawnEntities` call leaves the enemy collection exactly as it
was. -/
theorem spawnEntities_enemies_at_cap (inp : SpawnInputs) (s : EntityController)
    (h : maxEnemies ≤ s.enemies.length) :
    (s.spawnEntities inp).enemies = s.enemies := by
  have hlt : ¬ s.enemies.length < maxEnemies := Nat.not_lt.mpr h
  have h1 : spawnFromPerimeter inp s = s := by
    simp [spawnFromPerimeter, hlt]
  have h2 : spawnFromCentre inp s = s := by
    simp [spawnFromCentre, hlt]
  have h3 : spawnWanderer inp s = s := by
    simp [spawnWanderer, hlt]
  have h4 : spawnSatellites inp s = s := by
    simp [spawnSatellites, hlt]
  have h5 : (spawnMeteoroid inp s).enemies = s.enemies := by
    simp only [spawnMeteoroid]
    split_ifs <;> simp
  simp only [EntityController.spawnEntities, h1, h2, h3, h4, h5]

/-- The meteoroid track of one `spawnEntities` call, on any state: it fires on
its own timer and draw alone, unaffected by the enemy cap or any other
field. -/
theorem spawnEntities_meteoroids (inp : SpawnInputs) (s : EntityController) :
    (s.spawnEntities inp).meteoroids =
      (if trackFires inp.meteoroidElapsed inp.meteoroidDraw
            meteoroidSpawnInterval meteoroidSpawnChance = true
       then s.meteoroids ++ [newSpawn EntityID.meteoroid perimeterSpawnRadius inp.meteoroidDraw]
       else s.meteoroids) := by
  have hmets : ∀ (u : EntityController),
      (spawnSatellites inp (spawnWanderer inp (spawnFromCentre inp
        (spawnFromPerimeter inp u)))).meteoroids = u.meteoroids := by
    intro u
    simp only [spawnSatellites, spawnWanderer, spawnFromCentre, spawnFromPerimeter]
    split_ifs <;> simp
  simp only [EntityController.spawnEntities, spawnMeteoroid, hmets]
  split_ifs <;> simp [hmets]

/-- Claim C3: the enemy count cap.  With the enemy count already at
`maxEnemies`, any number of repeated `spawnEntities` calls leaves the enemy
count unchanged, while the meteoroid track keeps firing on its own timer and
draw alone, unaffected by the cap. -/
theorem spawnEntities_enemy_cap (s : EntityController) (inps : List SpawnInputs)
    (h : s.enemies.length = maxEnemies) :
    (inps.foldl EntityController.spawnEntities s).enemies.length = maxEnemies
  ∧ ∀ (inp : SpawnInputs) (s2 : EntityController), (s2.spawnEntities inp).meteoroids =
      (if trackFires inp.meteoroidElapsed inp.meteoroidDraw
            meteoroidSpawnInterval meteoroidSpawnChance = true
       then s2.meteoroids ++ [newSpawn EntityID.meteoroid perimeterSpawnRadius inp.meteoroidDraw]
       else s2.meteoroids) := by
  refine ⟨?_, fun inp s2 => spawnEntities_meteoroids inp s2⟩
  induction inps generalizing s with
  | nil => exact h
  | cons inp rest ih =>
    simp only [List.foldl_cons]
    have hs : (s.spawnEntities inp).enemies = s.enemies :=
      spawnEntities_enemies_at_cap inp s (le_of_eq h.symm)
    exact ih (s.spawnEntities inp) (by rw [hs]; exact h)

/-- The player-hit flag of the category 3 scan, as a rewrite rule. -/
theorem pb2eGo_playerHasBeenHit (bs : List Entity) (s : EntityController) :
    (pb2eGo bs s).playerHasBeenHit = s.playerHasBeenHit := (pb2eGo_pres bs s).1

/-- The player lives seen by the category 3 scan, as a rewrite rule. -/
theorem pb2eGo_playerLives (bs : List Entity) (s : EntityController) :
    (pb2eGo bs s).playerLives = s.playerLives := (pb2eGo_pres bs s).2.1

/-- The player invulnerability seen by the category 3 scan, as a rewrite
rule. -/
theorem pb2eGo_playerInvulnerable (bs : List Entity) (s : EntityController) :
    (pb2eGo bs s).playerInvulnerable = s.playerInvulnerable := (pb2eGo_pres bs s).2.2.1

/-- The meteoroid collection through the category 3 scan, as a rewrite rule. -/
theorem pb2eGo_meteoroids (bs : List Entity) (s : EntityController) :
    (pb2eGo bs s).meteoroids = s.meteoroids := (pb2eGo_pres bs s).2.2.2.1

/-- The enemy bullet collection through the category 3 scan, as a rewrite
rule. -/
theorem pb2eGo_bulletsEnemy (bs : List Entity) (s : EntityController) :
    (pb2eGo bs s).bulletsEnemy = s.bulletsEnemy := (pb2eGo_pres bs s).2.2.2.2.1

/-- The player bounds through the category 3 scan, as a rewrite rule. -/
theorem pb2eGo_playerBounds (bs : List Entity) (s : EntityController) :
    (pb2eGo bs s).playerBounds = s.playerBounds := (pb2eGo_pres bs s).2.2.2.2.2

/-- The returned flag of `checkCollisions` evaluates over the original
collections: it is the disjunction of the three player-affecting overlap
scans; and the pass itself never touches the player lives or invulnerability
the controller sees. -/
theorem checkCollisions_fields (s : EntityController) :
    (s.checkCollisions).1
      = (s.enemies.any (fun e => e.bounds.intersects s.playerBounds)
         || s.bulletsEnemy.any (fun b => b.bounds.intersects s.playerBounds)
         || s.meteoroids.any (fun m => m.bounds.intersects s.playerBounds))
  ∧ (s.checkCollisions).2.playerLives = s.playerLives
  ∧ (s.checkCollisions).2.playerInvulnerable = s.playerInvulnerable := by
  refine ⟨?_, ?_, ?_⟩ <;>
    simp [EntityController.checkCollisions,
      EntityController.checkEnemyToPlayerShipCollisions,
      EntityController.checkEnemyBulletsToPlayerShipCollisions,
      EntityController.checkPlayerBulletsToEnemyCollisions,
      EntityController.checkMeteoroidToPlayerShipCollisions,
      EntityController.checkPlayerBulletsToMeteoroidCollisions,
      pb2eGo_playerHasBeenHit, pb2eGo_playerLives, pb2eGo_playerInvulnerable,
      pb2eGo_meteoroids, pb2eGo_bulletsEnemy, pb2eGo_playerBounds]

/-- Claim C2: the return value of `checkCollisions` is true exactly when at
least one player-affecting collision (an enemy, an enemy bullet or a meteoroid
overlapping the player) occurred during the call; and over the whole frame the
life decrement and the invulnerability reset driven by that single returned
flag happen exactly once, not once per colliding pair: the lives drop by one
exactly when the flag is up and the player was vulnerable, whatever the number
of simultaneous hits. -/
theorem checkCollisions_player_hit_once (s : EntityController) :
    ((s.checkCollisions).1 = true ↔
      ((∃ e ∈ s.enemies, e.bounds.intersects s.playerBounds = true)
        ∨ (∃ b ∈ s.bulletsEnemy, b.bounds.intersects s.playerBounds = true)
        ∨ (∃ m ∈ s.meteoroids, m.bounds.intersects s.playerBounds = true)))
  ∧ ((s.collisionFrame).2.playerLives
      = s.playerLives
        - (if (s.checkCollisions).1 = true ∧ s.playerInvulnerable = false then 1 else 0))
  ∧ ((s.collisionFrame).2.playerInvulnerable
      = (s.playerInvulnerable || (s.checkCollisions).1)) := by
  obtain ⟨hf, hl, hi⟩ := checkCollisions_fields s
  refine ⟨?_, ?_, ?_⟩
  · rw [hf]
    simp [List.any_eq_true, or_assoc]
  · simp only [EntityController.collisionFrame]
    rcases h1 : (s.checkCollisions).1 with _ | _
    · simp [h1, hl]
    · rcases h2 : s.playerInvulnerable with _ | _
      · simp [h1, h2, hi, hl, EntityController.playerDie]
      · simp [h1, h2, hi, hl]
  · simp only [EntityController.collisionFrame]
    rcases h1 : (s.checkCollisions).1 with _ | _
    · simp [h1, hi]
    · rcases h2 : s.playerInvulnerable with _ | _
      · simp [h1, h2, hi, EntityController.playerDie]
      · simp [h1, h2, hi]

/-- Claim C1: player bullet against enemy.  In a state holding exactly one
player bullet and one enemy whose sprite bounds overlap (and nothing else in
play, the enemy clear of the player), `checkCollisions` removes the bullet
from the player-bullet collection and the enemy from the enemy collection,
increments the score by exactly one, and leaves exactly one Explosion, at the
collision point, in the explosion collection. -/
theorem playerBullet_enemy_collision (s : EntityController) (b e : Entity)
    (hbp : s.bulletsPlayer = [b]) (hen : s.enemies = [e])
    (hbe : s.bulletsEnemy = []) (hm : s.meteoroids = []) (hx : s.explosions = [])
    (hhit : b.bounds.intersects e.bounds = true)
    (hep : e.bounds.intersects s.playerBounds = false) :
    (s.checkCollisions).2.bulletsPlayer = []
  ∧ (s.checkCollisions).2.enemies = []
  ∧ (s.checkCollisions).2.score = s.score + 1
  ∧ (s.checkCollisions).2.explosions = [mkExplosion e] := by
  obtain ⟨bE, bP, en, met, ex, sc, eoc, phh, sm, ds, sa, pb, pr, pa, pl, pi, pu⟩ := s
  simp only at hbp hen hbe hm hx hep
  subst hbp hen hbe hm hx
  have hrf : removeFirstHit b [e] = some (e, []) := by
    simp [removeFirstHit, hhit]
  simp only [EntityController.checkCollisions,
    EntityController.checkEnemyToPlayerShipCollisions,
    EntityController.checkEnemyBulletsToPlayerShipCollisions,
    EntityController.checkPlayerBulletsToEnemyCollisions, pb2eGo,
    EntityController.enemyKilled,
    EntityController.checkMeteoroidToPlayerShipCollisions,
    EntityController.checkPlayerBulletsToMeteoroidCollisions]
  simp [hhit, hep, hrf]
  split_ifs <;> simp_all

/-- Claim C4: player bullet against meteoroid.  In a state holding a player
bullet whose bounds overlap a meteoroid (and no enemies, enemy bullets or
explosions in play), `checkCollisions` removes the bullet, leaves the
meteoroid collection with the same size and contents, leaves the score
unchanged, and spawns no Explosion. -/
theorem playerBullet_meteoroid_collision (s : EntityController) (b m : Entity)
    (hbp : s.bulletsPlayer = [b]) (hmet : s.meteoroids = [m])
    (hen : s.enemies = []) (hbe : s.bulletsEnemy = []) (hx : s.explosions = [])
    (hhit : b.bounds.intersects m.bounds = true) :
    (s.checkCollisions).2.bulletsPlayer = []
  ∧ (s.checkCollisions).2.meteoroids = [m]
  ∧ (s.checkCollisions).2.score = s.score
  ∧ (s.checkCollisions).2.explosions = [] := by
  obtain ⟨bE, bP, en, met, ex, sc, eoc, phh, sm, ds, sa, pb, pr, pa, pl, pi, pu⟩ := s
  simp only at hbp hmet hen hbe hx
  subst hbp hmet hen hbe hx
  simp only [EntityController.checkCollisions,
    EntityController.checkEnemyToPlayerShipCollisions,
    EntityController.checkEnemyBulletsToPlayerShipCollisions,
    EntityController.checkPlayerBulletsToEnemyCollisions, pb2eGo, removeFirstHit,
    EntityController.checkMeteoroidToPlayerShipCollisions,
    EntityController.checkPlayerBulletsToMeteoroidCollisions]
  simp [hhit]

/-- Concrete player bullet used to instantiate the collision scenarios. -/
def bulletSpec : Entity :=
  { type := EntityID.playerBullet,
    bounds := { left := 0, top := 0, width := 10, height := 10 }, radius := 100 }

/-- Concrete enemy overlapping `bulletSpec` and clear of the player. -/
def enemySpec : Entity :=
  { type := EntityID.basicEnemy,
    bounds := { left := 5, top := 5, width := 10, height := 10 }, radius := 100 }

/-- Concrete meteoroid overlapping `bulletSpec` and clear of the player. -/
def meteoroidSpec : Entity :=
  { type := EntityID.meteoroid,
    bounds := { left := 2, top := 2, width := 10, height := 10 }, radius := 100 }

/-- A controller state with every collection empty, the latch flags down, and
the player far from the test entities. -/
def ecBase : EntityController :=
  { bulletsEnemy := [], bulletsPlayer := [], enemies := [], meteoroids := [],
    explosions := [], score := 0, explosionHasOccurred := false,
    playerHasBeenHit := false, speedModifier := 1, defaultSpeed := 1,
    satellitesAlive := 0,
    playerBounds := { left := 1000, top := 1000, width := 10, height := 10 },
    playerRadius := 420, playerAngle := 0, playerLives := 3,
    playerInvulnerable := false, playerUpgraded := false }

/-- Controller state holding exactly one player bullet and one overlapping
enemy. -/
def ecOneBulletOneEnemy : EntityController :=
  { ecBase with bulletsPlayer := [bulletSpec], enemies := [enemySpec] }

/-- Controller state holding exactly one player bullet and one overlapping
meteoroid. -/
def ecOneBulletOneMeteoroid : EntityController :=
  { ecBase with bulletsPlayer := [bulletSpec], meteoroids := [meteoroidSpec] }

/-- Controller state already holding `maxEnemies` enemies. -/
def ecSevenEnemies : EntityController :=
  { ecBase with enemies := List.replicate 7 enemySpec }

/-- Spawn inputs whose timers have all exceeded their intervals and whose
draws all clear their thresholds, so every track that is not suppressed
fires. -/
def inpEager : SpawnInputs :=
  { perimeterElapsed := 10, perimeterDraw := 0, centreElapsed := 10, centreDraw := 0,
    wandererElapsed := 10, wandererDraw := 0, satelliteElapsed := 10, satelliteDraw := 0,
    meteoroidElapsed := 10, meteoroidDraw := 0 }

/-- Instantiation of the bullet-kills-enemy scenario at a concrete state. -/
theorem playerBullet_enemy_collision_witness :
    bulletSpec.bounds.intersects enemySpec.bounds = true
  ∧ enemySpec.bounds.intersects ecOneBulletOneEnemy.playerBounds = false
  ∧ ((ecOneBulletOneEnemy.checkCollisions).2.bulletsPlayer = []
    ∧ (ecOneBulletOneEnemy.checkCollisions).2.enemies = []
    ∧ (ecOneBulletOneEnemy.checkCollisions).2.score = ecOneBulletOneEnemy.score + 1
    ∧ (ecOneBulletOneEnemy.checkCollisions).2.explosions = [mkExplosion enemySpec]) :=
  ⟨by norm_num [bulletSpec, enemySpec, FloatRect.intersects],
   by norm_num [enemySpec, ecOneBulletOneEnemy, ecBase, FloatRect.intersects],
   playerBullet_enemy_collision ecOneBulletOneEnemy bulletSpec enemySpec
     rfl rfl rfl rfl rfl
     (by norm_num [bulletSpec, enemySpec, FloatRect.intersects])
     (by norm_num [enemySpec, ecOneBulletOneEnemy, ecBase, FloatRect.intersects])⟩

/-- Instantiation of the bullet-against-meteoroid scenario at a concrete
state. -/
theorem playerBullet_meteoroid_collision_witness :
    bulletSpec.bounds.intersects meteoroidSpec.bounds = true
  ∧ ((ecOneBulletOneMeteoroid.checkCollisions).2.bulletsPlayer = []
    ∧ (ecOneBulletOneMeteoroid.checkCollisions).2.meteoroids = [meteoroidSpec]
    ∧ (ecOneBulletOneMeteoroid.checkCollisions).2.score = ecOneBulletOneMeteoroid.score
    ∧ (ecOneBulletOneMeteoroid.checkCollisions).2.explosions = []) :=
  ⟨by norm_num [bulletSpec, meteoroidSpec, FloatRect.intersects],
   playerBullet_meteoroid_collision ecOneBulletOneMeteoroid bulletSpec meteoroidSpec
     rfl rfl rfl rfl rfl
     (by norm_num [bulletSpec, meteoroidSpec, FloatRect.intersects])⟩

/-- Instantiation of the enemy cap at a concrete state already holding seven
enemies, across two eager spawn calls. -/
theorem spawnEntities_enemy_cap_witness :
    ecSevenEnemies.enemies.length = maxEnemies
  ∧ ((([inpEager, inpEager]).foldl EntityController.spawnEntities ecSevenEnemies).enemies.length
        = maxEnemies
    ∧ ∀ (inp : SpawnInputs) (s2 : EntityController), (s2.spawnEntities inp).meteoroids =
        (if trackFires inp.meteoroidElapsed inp.meteoroidDraw
              meteoroidSpawnInterval meteoroidSpawnChance = true
         then s2.meteoroids ++ [newSpawn EntityID.meteoroid perimeterSpawnRadius inp.meteoroidDraw]
         else s2.meteoroids)) :=
  ⟨rfl, spawnEntities_enemy_cap ecSevenEnemies [inpEager, inpEager] rfl⟩
